import Mathlib

/-!
# Health-check manager of the RPC gateway (`internal/proxy/manager.go`)

A shallow embedding of `HealthcheckManager` and of its operations
(`NewHealthcheckManager`, `reportStatusMetrics`, the registration loop of
`Start`, `Stop`, `GetTargetByName`, `TaintTarget`), followed by theorems about
them.

Conventions of the embedding.

* A monitor (`Healthchecker` in the Go code, an interface whose implementation
  lives in another file) is a record of its immutable configuration and of its
  mutable state.  The manager's slice `healthcheckers` holds one reference per
  constructed monitor; a reference is modelled by the position of the monitor in
  the slice, and the slice by the list of the monitors' current states.
* Every operation is written in state-passing style: it returns its Go return
  value, the manager after the call and the list of externally visible effects
  (error log lines, calls of effectful monitor methods) in the order in which
  they happen.
* The Prometheus default registry, in which `promauto.NewGaugeVec` registers the
  gauge vectors of a manager, is process-wide state; it is modelled by the list
  of the metric names registered so far and is passed to and returned by
  `NewHealthcheckManager`.
* A Prometheus `GaugeVec` is a finite map from label values to the value last
  `Set`; it is modelled as a function to `Option Nat`, `none` meaning that the
  series was never set.  All values the manager stores are `float64`
  conversions of non-negative integers, so a gauge value is represented by the
  integer the `float64` holds.
-/

namespace Proxy

/-! ## Configuration records -/

/-- Go `NodeProviderConfig`, restricted to the two fields the manager reads:
`Name` and `Connection.HTTP.URL`. -/
structure NodeProviderConfig where
  Name : String
  URL : String
deriving DecidableEq, Repr

/-- Go `HealthCheckConfig`: the settings shared by all monitors. -/
structure HealthCheckConfig where
  Interval : Int
  Timeout : Int
  FailureThreshold : Nat
  SuccessThreshold : Nat
deriving DecidableEq, Repr

/-- Go `HealthcheckManagerConfig`. -/
structure HealthcheckManagerConfig where
  Targets : List NodeProviderConfig
  Config : HealthCheckConfig
deriving DecidableEq, Repr

/-- Go `RPCHealthcheckerConfig`: the record `NewHealthcheckManager` builds for
each target (lines 65-72). -/
structure RPCHealthcheckerConfig where
  URL : String
  Name : String
  Interval : Int
  Timeout : Int
  FailureThreshold : Nat
  SuccessThreshold : Nat
deriving DecidableEq, Repr

/-! ## Monitors -/

/-- Modelled from the spec: the state of one `Healthchecker` (the interface's
implementation is not part of `manager.go`).  Section 3 of the specification
lists an immutable configuration, two counters, the classification, the taint
flag and the last observed block height. -/
structure Healthchecker where
  config : RPCHealthcheckerConfig
  consecutiveSuccesses : Nat
  consecutiveFailures : Nat
  isHealthy : Bool
  isTainted : Bool
  blockNumber : Nat
deriving DecidableEq, Repr

namespace Healthchecker

/-- Modelled from the spec: `Name()`, the identity accessor, pure. -/
def Name (hc : Healthchecker) : String := hc.config.Name

/-- Modelled from the spec: `IsHealthy()`, a pure snapshot read. -/
def IsHealthy (hc : Healthchecker) : Bool := hc.isHealthy

/-- Modelled from the spec: `IsTainted()`, a pure snapshot read. -/
def IsTainted (hc : Healthchecker) : Bool := hc.isTainted

/-- Modelled from the spec: `BlockNumber()`, a pure snapshot read of a
`uint64`. -/
def BlockNumber (hc : Healthchecker) : Nat := hc.blockNumber

/-- Modelled from the spec: `Taint()` sets `tainted = true` and has no effect on
counters or classification. -/
def Taint (hc : Healthchecker) : Healthchecker := { hc with isTainted := true }

/-- Modelled from the spec: `Stop(deadline)` asks the polling loop to terminate
and reports an error when that did not happen within the deadline.  Whether it
does is decided by the environment and is passed in as `outcome` (`none` is Go's
`nil` error); the fields of the monitor modelled here are not touched. -/
def Stop (hc : Healthchecker) (outcome : Option String) : Healthchecker × Option String :=
  (hc, outcome)

end Healthchecker

/-- Modelled from the spec: `NewHealthchecker`, the constructor of a monitor
(absent from `manager.go`).  It fails when the configuration is invalid, which
`validate` decides (`some err` for an invalid configuration), and otherwise
returns a monitor that carries the configuration, is not tainted, has counters
and block height zero and starts out healthy (the initial classification the
specification recommends). -/
def NewHealthchecker (validate : RPCHealthcheckerConfig → Option String)
    (config : RPCHealthcheckerConfig) : Except String Healthchecker :=
  match validate config with
  | some err => .error err
  | none =>
    .ok { config := config, consecutiveSuccesses := 0, consecutiveFailures := 0,
          isHealthy := true, isTainted := false, blockNumber := 0 }

/-! ## Gauges -/

/-- A Prometheus gauge vector: label values to the value last set. -/
abbrev GaugeVec := List String → Option Nat

/-- A gauge vector fresh from `promauto.NewGaugeVec`: no series yet. -/
def GaugeVec.empty : GaugeVec := fun _ => none

/-- Go `gv.WithLabelValues(labels...).Set(v)`. -/
def GaugeVec.Set (gv : GaugeVec) (labels : List String) (v : Nat) : GaugeVec :=
  fun l => if l = labels then some v else gv l

/-- The Prometheus default registry of the process, as the fully qualified names
of the collectors registered in it so far. -/
abbrev Registry := List String

/-- Go `promauto.NewGaugeVec(prometheus.GaugeOpts{Name: name, ...}, labels)` of
the Prometheus client library: it creates a gauge vector without series and
registers it with the default registry, and panics when a collector of that name
is registered there already.  `.error` stands for the panic. -/
def promauto.NewGaugeVec (registry : Registry) (name : String) :
    Except String (GaugeVec × Registry) :=
  if name ∈ registry then .error "duplicate metrics collector registration attempted"
  else .ok (GaugeVec.empty, registry ++ [name])

/-- The names of the four gauge vectors `NewHealthcheckManager` registers (lines
33, 41, 49 and 56), in the order of the struct literal. -/
def gaugeNames : List String :=
  ["zeroex_rpc_gateway_provider_info", "zeroex_rpc_gateway_provider_status",
   "zeroex_rpc_gateway_provider_block_number", "zeroex_rpc_gateway_provider_gasLimit_number"]

/-- The binary exponent by which a `uint64` at or above `2^53` exceeds the 53
bit significand of a `float64`: the least `e` (searched upwards from the given
start, for `fuel` steps) with `n < 2^(53+e)`. -/
def float64Shift (n : Nat) : Nat → Nat → Nat
  | 0, e => e
  | fuel + 1, e => if n < 2 ^ (53 + e) then e else float64Shift n fuel (e + 1)

/-- The Go conversion `float64(n)` of an integer `0 ≤ n < 2^64`, as the integer
value the resulting IEEE 754 double holds: `n` itself when it fits the 53 bit
significand, and otherwise `n` rounded to the nearest multiple of `2^e` (ties to
the even significand). -/
def float64 (n : Nat) : Nat :=
  let e := float64Shift n 11 0
  let q := n / 2 ^ e
  let r := n % 2 ^ e
  if 2 * r < 2 ^ e then q * 2 ^ e
  else if 2 ^ e < 2 * r then (q + 1) * 2 ^ e
  else if q % 2 = 0 then q * 2 ^ e
  else (q + 1) * 2 ^ e

/-! ## The manager -/

/-- Go `HealthcheckManager` (lines 18-25). -/
structure HealthcheckManager where
  healthcheckers : List Healthchecker
  metricRPCProviderInfo : GaugeVec
  metricRPCProviderStatus : GaugeVec
  metricRPCProviderBlockNumber : GaugeVec
  metricRPCProviderGasLimit : GaugeVec

/-- An externally visible effect of a manager operation. -/
inductive Effect where
  /-- A call `zap.L().Error(msg, field)`. -/
  | logError (msg : String) (field : String)
  /-- The statement `go healthChecker.Start(ctx)` on the monitor at a position. -/
  | goStart (idx : Nat)
  /-- The call `healthChecker.Stop(ctx)` on the monitor at a position. -/
  | callStop (idx : Nat)
  /-- The call `healthChecker.Taint()` on the monitor at a position. -/
  | callTaint (idx : Nat)
deriving DecidableEq, Repr

/-- What a manager operation yields: its return value, the manager afterwards
and the effects it had, in order. -/
structure Result (α : Type) where
  ret : α
  manager : HealthcheckManager
  effects : List Effect

/-- The configuration `NewHealthcheckManager` passes to `NewHealthchecker` for a
target (lines 65-72). -/
def targetConfig (shared : HealthCheckConfig) (target : NodeProviderConfig) :
    RPCHealthcheckerConfig :=
  { URL := target.URL
    Name := target.Name
    Interval := shared.Interval
    Timeout := shared.Timeout
    FailureThreshold := shared.FailureThreshold
    SuccessThreshold := shared.SuccessThreshold }

/-- The loop of `NewHealthcheckManager` (lines 63-79) over the targets still to
visit, `healthCheckers` being the slice built so far.  A failing constructor
panics, which ends the loop with that error. -/
def NewHealthcheckManager.loop (newHealthchecker : RPCHealthcheckerConfig → Except String Healthchecker)
    (shared : HealthCheckConfig) :
    List NodeProviderConfig → List Healthchecker → Except String (List Healthchecker)
  | [], healthCheckers => .ok healthCheckers
  | target :: rest, healthCheckers =>
    match newHealthchecker (targetConfig shared target) with
    | .error err => .error err
    | .ok healthchecker =>
      NewHealthcheckManager.loop newHealthchecker shared rest (healthCheckers ++ [healthchecker])

/-- Go `NewHealthcheckManager` (lines 27-84), with the monitor constructor as a
parameter and the default registry as state.  The four gauge vectors of the
struct literal are created and registered first, in the order of the source
(lines 31-60), then the loop over the targets runs (lines 63-79).  `.error err`
stands for a panic, of `promauto.NewGaugeVec` or `panic(err)` of line 75; on
success the manager is returned together with the registry after the call. -/
def NewHealthcheckManager (newHealthchecker : RPCHealthcheckerConfig → Except String Healthchecker)
    (registry : Registry) (config : HealthcheckManagerConfig) :
    Except String (HealthcheckManager × Registry) :=
  match promauto.NewGaugeVec registry "zeroex_rpc_gateway_provider_info" with
  | .error err => .error err
  | .ok (info, registry1) =>
    match promauto.NewGaugeVec registry1 "zeroex_rpc_gateway_provider_status" with
    | .error err => .error err
    | .ok (status, registry2) =>
      match promauto.NewGaugeVec registry2 "zeroex_rpc_gateway_provider_block_number" with
      | .error err => .error err
      | .ok (blockNumber, registry3) =>
        match promauto.NewGaugeVec registry3 "zeroex_rpc_gateway_provider_gasLimit_number" with
        | .error err => .error err
        | .ok (gasLimit, registry4) =>
          match NewHealthcheckManager.loop newHealthchecker config.Config config.Targets [] with
          | .error err => .error err
          | .ok healthCheckers =>
            .ok ({ healthcheckers := healthCheckers
                   metricRPCProviderInfo := info
                   metricRPCProviderStatus := status
                   metricRPCProviderBlockNumber := blockNumber
                   metricRPCProviderGasLimit := gasLimit }, registry4)

/-- The body of the loop of `reportStatusMetrics` (lines 101-112) for one
monitor.  The four `Set` calls are made in the order of the source. -/
def reportStatusMetrics.body (h : HealthcheckManager) (healthchecker : Healthchecker) :
    HealthcheckManager :=
  let healthy := if healthchecker.IsHealthy then 1 else 0
  let tainted := if healthchecker.IsTainted then 1 else 0
  let h1 := { h with metricRPCProviderGasLimit :=
    h.metricRPCProviderGasLimit.Set [healthchecker.Name] (float64 healthchecker.BlockNumber) }
  let h2 := { h1 with metricRPCProviderBlockNumber :=
    h1.metricRPCProviderBlockNumber.Set [healthchecker.Name] (float64 healthchecker.BlockNumber) }
  let h3 := { h2 with metricRPCProviderStatus :=
    h2.metricRPCProviderStatus.Set [healthchecker.Name, "healthy"] (float64 healthy) }
  { h3 with metricRPCProviderStatus :=
    h3.metricRPCProviderStatus.Set [healthchecker.Name, "tainted"] (float64 tainted) }

/-- The loop of `reportStatusMetrics` over the monitors still to visit. -/
def reportStatusMetrics.loop : List Healthchecker → HealthcheckManager → HealthcheckManager
  | [], h => h
  | healthchecker :: rest, h =>
    reportStatusMetrics.loop rest (reportStatusMetrics.body h healthchecker)

/-- Go `reportStatusMetrics` (lines 99-114). -/
def reportStatusMetrics (h : HealthcheckManager) : Result Unit :=
  { ret := (), manager := reportStatusMetrics.loop h.healthcheckers h, effects := [] }

/-- Go `strconv.Itoa` on a slice index (a non-negative `int`). -/
def Itoa (index : Nat) : String := toString index

/-- The loop of `Start` (lines 117-120) over the monitors still to visit,
`index` being the position of the first of them. -/
def Start.loop : List Healthchecker → Nat → GaugeVec → GaugeVec × List Effect
  | [], _, info => (info, [])
  | healthChecker :: rest, index, info =>
    let r := Start.loop rest (index + 1) (info.Set [Itoa index, healthChecker.Name] 1)
    (r.1, Effect.goStart index :: r.2)

/-- The registration loop of Go `Start` (lines 117-120): it sets the info gauge
of every monitor and launches the monitor's polling task.  The polling tasks
themselves and `runLoop`, which `Start` enters afterwards, are concurrent and
timed and are not part of this function. -/
def Start.register (h : HealthcheckManager) : Result Unit :=
  let r := Start.loop h.healthcheckers 0 h.metricRPCProviderInfo
  { ret := (), manager := { h with metricRPCProviderInfo := r.1 }, effects := r.2 }

/-- The loop of `Stop` (lines 126-131) over the monitors still to visit, `index`
being the position of the first of them.  `outcome i` is what the `Stop` call on
monitor `i` returns.  Yields the monitors after their `Stop` calls and the
effects. -/
def Stop.loop (outcome : Nat → Option String) :
    List Healthchecker → Nat → List Healthchecker × List Effect
  | [], _ => ([], [])
  | healthChecker :: rest, index =>
    let s := healthChecker.Stop (outcome index)
    let r := Stop.loop outcome rest (index + 1)
    match s.2 with
    | some err =>
      (s.1 :: r.1,
        Effect.callStop index :: Effect.logError "healtchecker stop error" err :: r.2)
    | none => (s.1 :: r.1, Effect.callStop index :: r.2)

/-- Go `Stop` (lines 125-134).  The return value is Go's `error`, `none` being
`nil`. -/
def Stop (outcome : Nat → Option String) (h : HealthcheckManager) : Result (Option String) :=
  let r := Stop.loop outcome h.healthcheckers 0
  { ret := none, manager := { h with healthcheckers := r.1 }, effects := r.2 }

/-- The loop of `GetTargetByName` (lines 137-141) over the monitors still to
visit, `index` being the position of the first of them: the position of the
monitor the loop returns, if it returns one. -/
def GetTargetByName.loop (name : String) : List Healthchecker → Nat → Option Nat
  | [], _ => none
  | healthChecker :: rest, index =>
    if healthChecker.Name = name then some index
    else GetTargetByName.loop name rest (index + 1)

/-- Go `GetTargetByName` (lines 136-145).  The return value is the reference to
the monitor found (its position in the slice), `none` being Go's `nil`. -/
def GetTargetByName (h : HealthcheckManager) (name : String) : Result (Option Nat) :=
  match GetTargetByName.loop name h.healthcheckers 0 with
  | some index => { ret := some index, manager := h, effects := [] }
  | none =>
    { ret := none, manager := h
      effects := [Effect.logError "tried to access a non-existing Healthchecker" name] }

/-- A call of `Taint()` through the reference `index`: the monitor at that
position is replaced by its state after `Taint`. -/
def callTaintAt : List Healthchecker → Nat → List Healthchecker
  | [], _ => []
  | healthChecker :: rest, 0 => healthChecker.Taint :: rest
  | healthChecker :: rest, index + 1 => healthChecker :: callTaintAt rest index

/-- Go `TaintTarget` (lines 147-152). -/
def TaintTarget (h : HealthcheckManager) (name : String) : Result Unit :=
  let r := GetTargetByName h name
  match r.ret with
  | some index =>
    { ret := ()
      manager := { r.manager with healthcheckers := callTaintAt r.manager.healthcheckers index }
      effects := r.effects ++ [Effect.callTaint index] }
  | none => { ret := (), manager := r.manager, effects := r.effects }

/-- A runtime operation of the manager together with its arguments. -/
inductive Op where
  | startRegister
  | reportStatusMetrics
  | stop (outcome : Nat → Option String)
  | getTargetByName (name : String)
  | taintTarget (name : String)

/-- The manager after a runtime operation. -/
def Op.run : Op → HealthcheckManager → HealthcheckManager
  | .startRegister, h => (Proxy.Start.register h).manager
  | .reportStatusMetrics, h => (Proxy.reportStatusMetrics h).manager
  | .stop outcome, h => (Proxy.Stop outcome h).manager
  | .getTargetByName name, h => (Proxy.GetTargetByName h name).manager
  | .taintTarget name, h => (Proxy.TaintTarget h name).manager

/-- A manager holding the given monitors and no gauge series. -/
def managerOf (healthcheckers : List Healthchecker) : HealthcheckManager :=
  { healthcheckers := healthcheckers
    metricRPCProviderInfo := GaugeVec.empty
    metricRPCProviderStatus := GaugeVec.empty
    metricRPCProviderBlockNumber := GaugeVec.empty
    metricRPCProviderGasLimit := GaugeVec.empty }

/-- A monitor with the given name and state, for examples. -/
def sampleMonitor (name : String) (healthy tainted : Bool) (block : Nat) : Healthchecker :=
  { config := { URL := "http://" ++ name, Name := name, Interval := 5, Timeout := 1,
                FailureThreshold := 3, SuccessThreshold := 2 }
    consecutiveSuccesses := 0, consecutiveFailures := 0
    isHealthy := healthy, isTainted := tainted, blockNumber := block }

/-! ## Auxiliary definitions for the statements and examples -/

/-- Everything about a monitor except its taint flag. -/
def untaintedView (hc : Healthchecker) : RPCHealthcheckerConfig × Nat × Nat × Bool × Nat :=
  (hc.config, hc.consecutiveSuccesses, hc.consecutiveFailures, hc.isHealthy, hc.blockNumber)

/-- The manager after one `TaintTarget(name)` call. -/
def taintStep (name : String) (h : HealthcheckManager) : HealthcheckManager :=
  (TaintTarget h name).manager

/-- The position of the monitor a `Stop` call effect is made on. -/
def stopCallIndex : Effect → Option Nat
  | .callStop idx => some idx
  | _ => none

/-- The error a log effect of `Stop` reports. -/
def stopErrorLogged : Effect → Option String
  | .logError "healtchecker stop error" err => some err
  | _ => none

/-- An assignment of `Stop` outcomes in which only the monitor at position 1 fails
to stop in time. -/
def secondStopFails : Nat → Option String
  | 1 => some "context deadline exceeded"
  | _ => none

/-- A configuration with two valid targets, for examples. -/
def sampleConfig : HealthcheckManagerConfig :=
  { Targets := [{ Name := "a", URL := "http://a" }, { Name := "b", URL := "http://b" }]
    Config := { Interval := 5, Timeout := 1, FailureThreshold := 3, SuccessThreshold := 2 } }

/-- A validity check that rejects an empty URL, for examples. -/
def rejectEmptyURL (config : RPCHealthcheckerConfig) : Option String :=
  if config.URL = "" then some "empty URL" else none

/-- A configuration whose two targets share a name. -/
def duplicateNameConfig : HealthcheckManagerConfig :=
  { Targets := [{ Name := "a", URL := "http://one" }, { Name := "a", URL := "http://two" }]
    Config := { Interval := 5, Timeout := 1, FailureThreshold := 3, SuccessThreshold := 2 } }

/-- A fleet of one monitor whose block number is `2^53 + 1`. -/
def highBlockFleet : HealthcheckManager :=
  managerOf [sampleMonitor "a" true false 9007199254740993]

/-! ## Lookup by name -/

theorem GetTargetByName_loop_eq_some (name : String) :
    ∀ (l : List Healthchecker) (k i : Nat), GetTargetByName.loop name l k = some i →
      ∃ j m, i = k + j ∧ l[j]? = some m ∧ m.Name = name ∧
        ∀ j', j' < j → ∀ m', l[j']? = some m' → m'.Name ≠ name := by
  intro l
  induction l with
  | nil => intro k i hi; simp [GetTargetByName.loop] at hi
  | cons hd tl ih =>
    intro k i hi
    by_cases hhd : hd.Name = name
    · simp [GetTargetByName.loop, hhd] at hi
      exact ⟨0, hd, by omega, by simp, hhd, by intro j' hj'; omega⟩
    · simp [GetTargetByName.loop, hhd] at hi
      obtain ⟨j, m, hij, hm, hmn, hfirst⟩ := ih (k + 1) i hi
      refine ⟨j + 1, m, by omega, by simpa using hm, hmn, ?_⟩
      intro j' hj' m' hm'
      cases j' with
      | zero =>
        simp at hm'
        subst hm'
        exact hhd
      | succ j'' =>
        simp at hm'
        exact hfirst j'' (by omega) m' hm'

theorem GetTargetByName_loop_eq_none (name : String) :
    ∀ (l : List Healthchecker) (k : Nat),
      GetTargetByName.loop name l k = none ↔ ∀ m ∈ l, m.Name ≠ name := by
  intro l
  induction l with
  | nil => intro k; simp [GetTargetByName.loop]
  | cons hd tl ih =>
    intro k
    by_cases hhd : hd.Name = name
    · simp [GetTargetByName.loop, hhd]
    · simp [GetTargetByName.loop, hhd, ih (k + 1)]

theorem GetTargetByName_ret_eq (h : HealthcheckManager) (name : String) :
    (GetTargetByName h name).ret = GetTargetByName.loop name h.healthcheckers 0 := by
  unfold GetTargetByName
  cases GetTargetByName.loop name h.healthcheckers 0 <;> rfl

theorem GetTargetByName_manager_eq (h : HealthcheckManager) (name : String) :
    (GetTargetByName h name).manager = h := by
  unfold GetTargetByName
  cases GetTargetByName.loop name h.healthcheckers 0 <;> rfl

theorem GetTargetByName_ret_some (h : HealthcheckManager) (name : String) (i : Nat)
    (hi : (GetTargetByName h name).ret = some i) :
    ∃ m, h.healthcheckers[i]? = some m ∧ m.Name = name ∧
      ∀ j, j < i → ∀ m', h.healthcheckers[j]? = some m' → m'.Name ≠ name := by
  rw [GetTargetByName_ret_eq] at hi
  obtain ⟨j, m, hij, hm, hmn, hfirst⟩ := GetTargetByName_loop_eq_some name _ 0 i hi
  have hji : i = j := by omega
  subst hji
  exact ⟨m, hm, hmn, hfirst⟩

theorem GetTargetByName_ret_none (h : HealthcheckManager) (name : String) :
    (GetTargetByName h name).ret = none ↔ ∀ m ∈ h.healthcheckers, m.Name ≠ name := by
  rw [GetTargetByName_ret_eq]
  exact GetTargetByName_loop_eq_none name _ 0

theorem GetTargetByName_found_of_mem (h : HealthcheckManager) (name : String)
    (hex : ∃ m ∈ h.healthcheckers, m.Name = name) :
    ∃ i m, (GetTargetByName h name).ret = some i ∧ h.healthcheckers[i]? = some m ∧
      m.Name = name ∧
      ∀ j, j < i → ∀ m', h.healthcheckers[j]? = some m' → m'.Name ≠ name := by
  cases hret : (GetTargetByName h name).ret with
  | none =>
    obtain ⟨m, hm, hmn⟩ := hex
    exact absurd hmn ((GetTargetByName_ret_none h name).1 hret m hm)
  | some i =>
    obtain ⟨m, hm, hmn, hfirst⟩ := GetTargetByName_ret_some h name i hret
    exact ⟨i, m, rfl, hm, hmn, hfirst⟩

/-- Claim C1: when some monitor of the fleet carries `name`, `GetTargetByName`
returns a monitor of the fleet whose `Name()` is `name`, and no monitor before it
in the slice has that name. -/
theorem GetTargetByName_returns_first_match (h : HealthcheckManager) (name : String)
    (hex : ∃ m ∈ h.healthcheckers, m.Name = name) :
    ∃ i m, (GetTargetByName h name).ret = some i ∧ h.healthcheckers[i]? = some m ∧
      m.Name = name ∧
      ∀ j, j < i → ∀ m', h.healthcheckers[j]? = some m' → m'.Name ≠ name :=
  GetTargetByName_found_of_mem h name hex

theorem GetTargetByName_returns_first_match_witness :
    (∃ m ∈ (managerOf [sampleMonitor "a" true false 7, sampleMonitor "b" false false 8,
        sampleMonitor "b" true true 9]).healthcheckers, m.Name = "b") ∧
    ∃ i m, (GetTargetByName (managerOf [sampleMonitor "a" true false 7,
        sampleMonitor "b" false false 8, sampleMonitor "b" true true 9]) "b").ret = some i ∧
      (managerOf [sampleMonitor "a" true false 7, sampleMonitor "b" false false 8,
        sampleMonitor "b" true true 9]).healthcheckers[i]? = some m ∧
      m.Name = "b" ∧
      ∀ j, j < i → ∀ m', (managerOf [sampleMonitor "a" true false 7,
        sampleMonitor "b" false false 8,
        sampleMonitor "b" true true 9]).healthcheckers[j]? = some m' → m'.Name ≠ "b" :=
  ⟨⟨sampleMonitor "b" false false 8, by decide, by decide⟩,
   GetTargetByName_returns_first_match _ "b" ⟨sampleMonitor "b" false false 8, by decide, by decide⟩⟩

/-- Claim C4: `GetTargetByName` returns the absent result exactly when no monitor
of the fleet has the name, and then (as in every other case) it leaves the
manager, hence every monitor, as it was; the miss is logged once. -/
theorem GetTargetByName_absent_iff (h : HealthcheckManager) (name : String) :
    ((GetTargetByName h name).ret = none ↔ ∀ m ∈ h.healthcheckers, m.Name ≠ name) ∧
    ((GetTargetByName h name).ret = none →
      (GetTargetByName h name).manager = h ∧
      (GetTargetByName h name).effects =
        [Effect.logError "tried to access a non-existing Healthchecker" name]) := by
  refine ⟨GetTargetByName_ret_none h name, fun hnone => ⟨GetTargetByName_manager_eq h name, ?_⟩⟩
  rw [GetTargetByName_ret_eq] at hnone
  unfold GetTargetByName
  rw [hnone]

theorem GetTargetByName_absent_iff_witness :
    (GetTargetByName (managerOf [sampleMonitor "a" true false 7]) "c").ret = none ∧
    (GetTargetByName (managerOf [sampleMonitor "a" true false 7]) "c").manager =
      managerOf [sampleMonitor "a" true false 7] ∧
    (GetTargetByName (managerOf [sampleMonitor "a" true false 7]) "a").ret ≠ none :=
  ⟨by decide,
   ((GetTargetByName_absent_iff (managerOf [sampleMonitor "a" true false 7]) "c").2
      (by decide)).1,
   by decide⟩

/-! ## Tainting -/

theorem callTaintAt_length : ∀ (l : List Healthchecker) (i : Nat),
    (callTaintAt l i).length = l.length := by
  intro l
  induction l with
  | nil => intro i; rfl
  | cons hd tl ih =>
    intro i
    cases i with
    | zero => rfl
    | succ i => simp [callTaintAt, ih i]

theorem callTaintAt_getElem? : ∀ (l : List Healthchecker) (i j : Nat),
    (callTaintAt l i)[j]? = if j = i then l[j]?.map Healthchecker.Taint else l[j]? := by
  intro l
  induction l with
  | nil => intro i j; simp [callTaintAt]
  | cons hd tl ih =>
    intro i j
    cases i with
    | zero =>
      cases j with
      | zero => simp [callTaintAt]
      | succ j => simp [callTaintAt]
    | succ i =>
      cases j with
      | zero => simp [callTaintAt]
      | succ j => simp [callTaintAt, ih i j]

theorem callTaintAt_idem : ∀ (l : List Healthchecker) (i : Nat),
    callTaintAt (callTaintAt l i) i = callTaintAt l i := by
  intro l
  induction l with
  | nil => intro i; rfl
  | cons hd tl ih =>
    intro i
    cases i with
    | zero => rfl
    | succ i => simp [callTaintAt, ih i]

theorem callTaintAt_untaintedView : ∀ (l : List Healthchecker) (i : Nat),
    (callTaintAt l i).map untaintedView = l.map untaintedView := by
  intro l
  induction l with
  | nil => intro i; rfl
  | cons hd tl ih =>
    intro i
    cases i with
    | zero => rfl
    | succ i => simp [callTaintAt, ih i]

theorem GetTargetByName_loop_congr (name : String) :
    ∀ (l l' : List Healthchecker) (k : Nat),
      l.map Healthchecker.Name = l'.map Healthchecker.Name →
      GetTargetByName.loop name l k = GetTargetByName.loop name l' k := by
  intro l
  induction l with
  | nil =>
    intro l' k hl
    cases l' with
    | nil => rfl
    | cons hd' tl' => simp at hl
  | cons hd tl ih =>
    intro l' k hl
    cases l' with
    | nil => simp at hl
    | cons hd' tl' =>
      simp only [List.map_cons, List.cons.injEq] at hl
      simp only [GetTargetByName.loop, hl.1, ih tl' (k + 1) hl.2]

theorem map_Name_of_untaintedView (l l' : List Healthchecker)
    (hv : l.map untaintedView = l'.map untaintedView) :
    l.map Healthchecker.Name = l'.map Healthchecker.Name := by
  have := congrArg (List.map fun v : RPCHealthcheckerConfig × Nat × Nat × Bool × Nat => v.1.Name) hv
  simpa [List.map_map, Function.comp_def, untaintedView, Healthchecker.Name] using this

theorem TaintTarget_of_some (h : HealthcheckManager) (name : String) (i : Nat)
    (hi : (GetTargetByName h name).ret = some i) :
    (TaintTarget h name).manager =
        { h with healthcheckers := callTaintAt h.healthcheckers i } ∧
      (TaintTarget h name).effects = [Effect.callTaint i] := by
  rw [GetTargetByName_ret_eq] at hi
  simp [TaintTarget, GetTargetByName, hi]

theorem TaintTarget_of_none (h : HealthcheckManager) (name : String)
    (hi : (GetTargetByName h name).ret = none) :
    (TaintTarget h name).manager = h ∧
      (TaintTarget h name).effects =
        [Effect.logError "tried to access a non-existing Healthchecker" name] := by
  rw [GetTargetByName_ret_eq] at hi
  simp [TaintTarget, GetTargetByName, hi]

theorem TaintTarget_untaintedView (h : HealthcheckManager) (name : String) :
    (TaintTarget h name).manager.healthcheckers.map untaintedView =
      h.healthcheckers.map untaintedView := by
  cases hret : (GetTargetByName h name).ret with
  | none => rw [(TaintTarget_of_none h name hret).1]
  | some i =>
    rw [(TaintTarget_of_some h name i hret).1]
    exact callTaintAt_untaintedView _ i

theorem GetTargetByName_after_TaintTarget (h : HealthcheckManager) (name name' : String) :
    (GetTargetByName (TaintTarget h name).manager name').ret = (GetTargetByName h name').ret := by
  rw [GetTargetByName_ret_eq, GetTargetByName_ret_eq]
  exact GetTargetByName_loop_congr name' _ _ 0
    (map_Name_of_untaintedView _ _ (TaintTarget_untaintedView h name))

theorem TaintTarget_idem (h : HealthcheckManager) (name : String) :
    (TaintTarget (TaintTarget h name).manager name).manager = (TaintTarget h name).manager := by
  cases hret : (GetTargetByName h name).ret with
  | none =>
    have h1 := (TaintTarget_of_none h name hret).1
    rw [h1, h1]
  | some i =>
    have hret' := GetTargetByName_after_TaintTarget h name name
    rw [hret] at hret'
    rw [(TaintTarget_of_some _ name i hret').1, (TaintTarget_of_some h name i hret).1]
    simp [callTaintAt_idem]

/-- Claim C2: when some monitor carries `name`, after `TaintTarget(name)` the
monitor `GetTargetByName(name)` returns (the same one as before the call) is
tainted and otherwise exactly as before, in particular with the same `IsHealthy()`
and `BlockNumber()`; every other monitor of the fleet is exactly as before;
`Taint()` was called once, on that monitor. -/
theorem TaintTarget_taints_only_target (h : HealthcheckManager) (name : String)
    (hex : ∃ m ∈ h.healthcheckers, m.Name = name) :
    ∃ i before after,
      (GetTargetByName h name).ret = some i ∧
      (GetTargetByName (TaintTarget h name).manager name).ret = some i ∧
      h.healthcheckers[i]? = some before ∧
      (TaintTarget h name).manager.healthcheckers[i]? = some after ∧
      after.IsTainted = true ∧
      after.IsHealthy = before.IsHealthy ∧
      after.BlockNumber = before.BlockNumber ∧
      after.Name = before.Name ∧
      untaintedView after = untaintedView before ∧
      (∀ j, j ≠ i →
        (TaintTarget h name).manager.healthcheckers[j]? = h.healthcheckers[j]?) ∧
      (TaintTarget h name).manager.healthcheckers.length = h.healthcheckers.length ∧
      (TaintTarget h name).effects = [Effect.callTaint i] := by
  obtain ⟨i, before, hret, hbefore, -, -⟩ := GetTargetByName_found_of_mem h name hex
  have hT := TaintTarget_of_some h name i hret
  refine ⟨i, before, before.Taint, hret, ?_, hbefore, ?_, rfl, rfl, rfl, rfl, rfl, ?_, ?_, hT.2⟩
  · rw [GetTargetByName_after_TaintTarget, hret]
  · rw [hT.1]
    simp [callTaintAt_getElem?, hbefore]
  · intro j hj
    rw [hT.1]
    simp [callTaintAt_getElem?, hj]
  · rw [hT.1]
    exact callTaintAt_length _ i

theorem TaintTarget_taints_only_target_witness :
    (∃ m ∈ (managerOf [sampleMonitor "a" true false 7,
        sampleMonitor "b" false false 8]).healthcheckers, m.Name = "b") ∧
    ∃ i before after,
      (GetTargetByName (managerOf [sampleMonitor "a" true false 7,
        sampleMonitor "b" false false 8]) "b").ret = some i ∧
      (GetTargetByName (TaintTarget (managerOf [sampleMonitor "a" true false 7,
        sampleMonitor "b" false false 8]) "b").manager "b").ret = some i ∧
      (managerOf [sampleMonitor "a" true false 7,
        sampleMonitor "b" false false 8]).healthcheckers[i]? = some before ∧
      (TaintTarget (managerOf [sampleMonitor "a" true false 7,
        sampleMonitor "b" false false 8]) "b").manager.healthcheckers[i]? = some after ∧
      after.IsTainted = true ∧
      after.IsHealthy = before.IsHealthy ∧
      after.BlockNumber = before.BlockNumber ∧
      after.Name = before.Name ∧
      untaintedView after = untaintedView before ∧
      (∀ j, j ≠ i →
        (TaintTarget (managerOf [sampleMonitor "a" true false 7,
          sampleMonitor "b" false false 8]) "b").manager.healthcheckers[j]? =
        (managerOf [sampleMonitor "a" true false 7,
          sampleMonitor "b" false false 8]).healthcheckers[j]?) ∧
      (TaintTarget (managerOf [sampleMonitor "a" true false 7,
        sampleMonitor "b" false false 8]) "b").manager.healthcheckers.length =
        (managerOf [sampleMonitor "a" true false 7,
          sampleMonitor "b" false false 8]).healthcheckers.length ∧
      (TaintTarget (managerOf [sampleMonitor "a" true false 7,
        sampleMonitor "b" false false 8]) "b").effects = [Effect.callTaint i] :=
  ⟨⟨sampleMonitor "b" false false 8, by decide, by decide⟩,
   TaintTarget_taints_only_target _ "b" ⟨sampleMonitor "b" false false 8, by decide, by decide⟩⟩

/-- Claim C3: for a name no monitor carries (in particular on the empty fleet)
`TaintTarget` returns with the manager, hence every monitor, exactly as before;
its only effect is the error log line of the failed lookup, so `Taint()` is called
on no monitor. -/
theorem TaintTarget_unknown_name_noop (h : HealthcheckManager) (name : String)
    (hno : ∀ m ∈ h.healthcheckers, m.Name ≠ name) :
    (TaintTarget h name).manager = h ∧
      (TaintTarget h name).effects =
        [Effect.logError "tried to access a non-existing Healthchecker" name] ∧
      ∀ i, Effect.callTaint i ∉ (TaintTarget h name).effects := by
  have hT := TaintTarget_of_none h name ((GetTargetByName_ret_none h name).2 hno)
  refine ⟨hT.1, hT.2, ?_⟩
  intro i
  rw [hT.2]
  simp

theorem TaintTarget_unknown_name_noop_witness :
    (∀ m ∈ (managerOf [sampleMonitor "a" true false 7,
        sampleMonitor "b" false false 8]).healthcheckers, m.Name ≠ "c") ∧
    ((TaintTarget (managerOf [sampleMonitor "a" true false 7,
        sampleMonitor "b" false false 8]) "c").manager =
      managerOf [sampleMonitor "a" true false 7, sampleMonitor "b" false false 8] ∧
      (TaintTarget (managerOf [sampleMonitor "a" true false 7,
        sampleMonitor "b" false false 8]) "c").effects =
        [Effect.logError "tried to access a non-existing Healthchecker" "c"] ∧
      ∀ i, Effect.callTaint i ∉ (TaintTarget (managerOf [sampleMonitor "a" true false 7,
        sampleMonitor "b" false false 8]) "c").effects) :=
  ⟨by decide, TaintTarget_unknown_name_noop _ "c" (by decide)⟩

theorem taintStep_iterate_succ (name : String) (h : HealthcheckManager) :
    ∀ n : Nat, (taintStep name)^[n + 1] h = taintStep name h := by
  intro n
  induction n with
  | zero => rfl
  | succ n ih =>
    rw [Function.iterate_succ_apply', ih]
    exact TaintTarget_idem h name

theorem taintStep_iterate_untaintedView (name : String) (h : HealthcheckManager) :
    ∀ n : Nat, ((taintStep name)^[n] h).healthcheckers.map untaintedView =
      h.healthcheckers.map untaintedView := by
  intro n
  induction n with
  | zero => rfl
  | succ n ih =>
    rw [Function.iterate_succ_apply']
    exact (TaintTarget_untaintedView _ name).trans ih

/-- Claim C8: `N ≥ 1` successive `TaintTarget(name)` calls leave the manager, hence
every monitor, exactly as a single call does, and after any number of calls every
monitor still has the health classification and block number (and name) it
started with. -/
theorem TaintTarget_idempotent (h : HealthcheckManager) (name : String) (N : Nat)
    (hN : 1 ≤ N) :
    (taintStep name)^[N] h = (TaintTarget h name).manager ∧
    ∀ k : Nat,
      ((taintStep name)^[k] h).healthcheckers.map
          (fun m => (m.IsHealthy, m.BlockNumber, m.Name)) =
        h.healthcheckers.map (fun m => (m.IsHealthy, m.BlockNumber, m.Name)) := by
  constructor
  · obtain ⟨n, rfl⟩ : ∃ n, N = n + 1 := ⟨N - 1, by omega⟩
    exact taintStep_iterate_succ name h n
  · intro k
    have hv := congrArg
      (List.map fun v : RPCHealthcheckerConfig × Nat × Nat × Bool × Nat =>
        (v.2.2.2.1, v.2.2.2.2, v.1.Name))
      (taintStep_iterate_untaintedView name h k)
    simpa [List.map_map, Function.comp_def, untaintedView, Healthchecker.Name,
      Healthchecker.IsHealthy, Healthchecker.BlockNumber] using hv

theorem TaintTarget_idempotent_witness :
    1 ≤ 3 ∧
    ((taintStep "b")^[3] (managerOf [sampleMonitor "a" true false 7,
        sampleMonitor "b" false false 8]) =
      (TaintTarget (managerOf [sampleMonitor "a" true false 7,
        sampleMonitor "b" false false 8]) "b").manager ∧
    ∀ k : Nat,
      ((taintStep "b")^[k] (managerOf [sampleMonitor "a" true false 7,
        sampleMonitor "b" false false 8])).healthcheckers.map
          (fun m => (m.IsHealthy, m.BlockNumber, m.Name)) =
        (managerOf [sampleMonitor "a" true false 7,
          sampleMonitor "b" false false 8]).healthcheckers.map
          (fun m => (m.IsHealthy, m.BlockNumber, m.Name))) :=
  ⟨by decide, TaintTarget_idempotent _ "b" 3 (by decide)⟩

/-! ## Stopping -/

theorem Stop_loop_calls (outcome : Nat → Option String) :
    ∀ (l : List Healthchecker) (k : Nat),
      (Stop.loop outcome l k).2.filterMap stopCallIndex = List.range' k l.length := by
  intro l
  induction l with
  | nil => intro k; rfl
  | cons hd tl ih =>
    intro k
    cases ho : outcome k with
    | none => simp [Stop.loop, Healthchecker.Stop, ho, stopCallIndex, ih (k + 1), List.range']
    | some err =>
      simp [Stop.loop, Healthchecker.Stop, ho, stopCallIndex, ih (k + 1), List.range']

theorem Stop_loop_logs (outcome : Nat → Option String) :
    ∀ (l : List Healthchecker) (k : Nat),
      (Stop.loop outcome l k).2.filterMap stopErrorLogged =
        (List.range' k l.length).filterMap outcome := by
  intro l
  induction l with
  | nil => intro k; rfl
  | cons hd tl ih =>
    intro k
    cases ho : outcome k with
    | none =>
      simp [Stop.loop, Healthchecker.Stop, ho, stopErrorLogged, ih (k + 1), List.range']
    | some err =>
      simp [Stop.loop, Healthchecker.Stop, ho, stopErrorLogged, ih (k + 1), List.range']

theorem Stop_loop_monitors (outcome : Nat → Option String) :
    ∀ (l : List Healthchecker) (k : Nat), (Stop.loop outcome l k).1 = l := by
  intro l
  induction l with
  | nil => intro k; rfl
  | cons hd tl ih =>
    intro k
    cases ho : outcome k with
    | none => simp [Stop.loop, Healthchecker.Stop, ho, ih (k + 1)]
    | some err => simp [Stop.loop, Healthchecker.Stop, ho, ih (k + 1)]

/-- Claim C6: whatever the individual monitors' `Stop` calls return,
`HealthcheckManager.Stop` returns `nil`, and the `Stop` calls it makes are exactly
one per monitor, in the order of the fleet (positions `0, 1, ..., n-1`), so a
failing monitor does not end the loop; each failure is logged, in that order. -/
theorem Stop_calls_every_monitor_returns_nil (outcome : Nat → Option String)
    (h : HealthcheckManager) :
    (Stop outcome h).ret = none ∧
    (Stop outcome h).effects.filterMap stopCallIndex = List.range h.healthcheckers.length ∧
    (∀ i, i < h.healthcheckers.length →
      (Stop outcome h).effects.count (Effect.callStop i) = 1) ∧
    (Stop outcome h).effects.filterMap stopErrorLogged =
      (List.range h.healthcheckers.length).filterMap outcome := by
  have hcalls : (Stop outcome h).effects.filterMap stopCallIndex =
      List.range h.healthcheckers.length := by
    rw [List.range_eq_range']
    exact Stop_loop_calls outcome h.healthcheckers 0
  refine ⟨rfl, hcalls, ?_, ?_⟩
  · intro i hi
    have hc : ((Stop outcome h).effects.filterMap stopCallIndex).count i = 1 := by
      rw [hcalls]
      exact List.count_eq_one_of_mem (List.nodup_range _) (List.mem_range.2 hi)
    rw [← hc]
    generalize (Stop outcome h).effects = es
    induction es with
    | nil => rfl
    | cons e es ih =>
      cases e with
      | callStop idx =>
        by_cases hidx : idx = i
        · subst hidx
          simp [stopCallIndex, List.filterMap_cons, ih]
        · have hne : Effect.callStop idx ≠ Effect.callStop i := by
            intro hE; exact hidx (Effect.callStop.inj hE)
          simp [stopCallIndex, List.filterMap_cons, List.count_cons, ih, hidx, hne]
      | logError msg field => simp [stopCallIndex, List.filterMap_cons, List.count_cons, ih]
      | goStart idx => simp [stopCallIndex, List.filterMap_cons, List.count_cons, ih]
      | callTaint idx => simp [stopCallIndex, List.filterMap_cons, List.count_cons, ih]
  · rw [List.range_eq_range']
    exact Stop_loop_logs outcome h.healthcheckers 0

theorem Stop_calls_every_monitor_returns_nil_witness :
    (Stop secondStopFails (managerOf [sampleMonitor "a" true false 7,
      sampleMonitor "b" false false 8, sampleMonitor "c" true true 9])).ret = none ∧
    (Stop secondStopFails (managerOf [sampleMonitor "a" true false 7,
      sampleMonitor "b" false false 8, sampleMonitor "c" true true 9])).effects =
      [Effect.callStop 0, Effect.callStop 1,
        Effect.logError "healtchecker stop error" "context deadline exceeded",
        Effect.callStop 2] :=
  ⟨(Stop_calls_every_monitor_returns_nil secondStopFails (managerOf
      [sampleMonitor "a" true false 7, sampleMonitor "b" false false 8,
        sampleMonitor "c" true true 9])).1,
   by decide⟩

/-! ## Construction -/

theorem NewHealthcheckManager_loop_ok
    (newHealthchecker : RPCHealthcheckerConfig → Except String Healthchecker)
    (shared : HealthCheckConfig) :
    ∀ (targets : List NodeProviderConfig) (acc l : List Healthchecker),
      NewHealthcheckManager.loop newHealthchecker shared targets acc = .ok l →
      ∃ built, l = acc ++ built ∧
        List.Forall₂ (fun t hc => newHealthchecker (targetConfig shared t) = .ok hc)
          targets built := by
  intro targets
  induction targets with
  | nil =>
    intro acc l hl
    simp only [NewHealthcheckManager.loop, Except.ok.injEq] at hl
    exact ⟨[], by simp [hl], List.Forall₂.nil⟩
  | cons t ts ih =>
    intro acc l hl
    cases hnew : newHealthchecker (targetConfig shared t) with
    | error err => simp [NewHealthcheckManager.loop, hnew] at hl
    | ok hc =>
      simp only [NewHealthcheckManager.loop, hnew] at hl
      obtain ⟨built, hb, hf⟩ := ih (acc ++ [hc]) l hl
      exact ⟨hc :: built, by simp [hb], List.Forall₂.cons hnew hf⟩

theorem NewHealthcheckManager_loop_error
    (newHealthchecker : RPCHealthcheckerConfig → Except String Healthchecker)
    (shared : HealthCheckConfig) :
    ∀ (targets : List NodeProviderConfig) (acc : List Healthchecker),
      (∃ err, NewHealthcheckManager.loop newHealthchecker shared targets acc = .error err) ↔
      ∃ t ∈ targets, ∃ err, newHealthchecker (targetConfig shared t) = .error err := by
  intro targets
  induction targets with
  | nil => intro acc; simp [NewHealthcheckManager.loop]
  | cons t ts ih =>
    intro acc
    cases hnew : newHealthchecker (targetConfig shared t) with
    | error err => simp [NewHealthcheckManager.loop, hnew]
    | ok hc => simp [NewHealthcheckManager.loop, hnew, ih (acc ++ [hc])]

theorem NewHealthcheckManager_of_fresh
    (newHealthchecker : RPCHealthcheckerConfig → Except String Healthchecker)
    (registry : Registry) (config : HealthcheckManagerConfig)
    (hfresh : ∀ n ∈ gaugeNames, n ∉ registry) :
    NewHealthcheckManager newHealthchecker registry config =
      match NewHealthcheckManager.loop newHealthchecker config.Config config.Targets [] with
      | .error err => .error err
      | .ok healthCheckers => .ok (managerOf healthCheckers, registry ++ gaugeNames) := by
  have h1 : "zeroex_rpc_gateway_provider_info" ∉ registry := hfresh _ (by decide)
  have h2 : "zeroex_rpc_gateway_provider_status" ∉ registry := hfresh _ (by decide)
  have h3 : "zeroex_rpc_gateway_provider_block_number" ∉ registry := hfresh _ (by decide)
  have h4 : "zeroex_rpc_gateway_provider_gasLimit_number" ∉ registry := hfresh _ (by decide)
  simp [NewHealthcheckManager, promauto.NewGaugeVec, h1, h2, h3, h4, managerOf, gaugeNames]

theorem NewHealthcheckManager_of_registered
    (newHealthchecker : RPCHealthcheckerConfig → Except String Healthchecker)
    (registry : Registry) (config : HealthcheckManagerConfig)
    (hreg : ∃ n ∈ gaugeNames, n ∈ registry) :
    NewHealthcheckManager newHealthchecker registry config =
      .error "duplicate metrics collector registration attempted" := by
  obtain ⟨n, hn, hnr⟩ := hreg
  by_cases h1 : "zeroex_rpc_gateway_provider_info" ∈ registry
  · simp [NewHealthcheckManager, promauto.NewGaugeVec, h1]
  by_cases h2 : "zeroex_rpc_gateway_provider_status" ∈ registry
  · simp [NewHealthcheckManager, promauto.NewGaugeVec, h1, h2]
  by_cases h3 : "zeroex_rpc_gateway_provider_block_number" ∈ registry
  · simp [NewHealthcheckManager, promauto.NewGaugeVec, h1, h2, h3]
  by_cases h4 : "zeroex_rpc_gateway_provider_gasLimit_number" ∈ registry
  · simp [NewHealthcheckManager, promauto.NewGaugeVec, h1, h2, h3, h4]
  exfalso
  simp only [gaugeNames, List.mem_cons, List.mem_singleton, List.not_mem_nil, or_false] at hn
  rcases hn with rfl | rfl | rfl | rfl
  · exact h1 hnr
  · exact h2 hnr
  · exact h3 hnr
  · exact h4 hnr

theorem NewHealthcheckManager_ok
    (newHealthchecker : RPCHealthcheckerConfig → Except String Healthchecker)
    (registry registry' : Registry) (config : HealthcheckManagerConfig)
    (m : HealthcheckManager)
    (hm : NewHealthcheckManager newHealthchecker registry config = .ok (m, registry')) :
    (∀ n ∈ gaugeNames, n ∉ registry) ∧ registry' = registry ++ gaugeNames ∧
    m = managerOf m.healthcheckers ∧
    List.Forall₂ (fun t hc => newHealthchecker (targetConfig config.Config t) = .ok hc)
      config.Targets m.healthcheckers := by
  by_cases hfresh : ∀ n ∈ gaugeNames, n ∉ registry
  · rw [NewHealthcheckManager_of_fresh newHealthchecker registry config hfresh] at hm
    cases hl : NewHealthcheckManager.loop newHealthchecker config.Config config.Targets [] with
    | error err => simp [hl] at hm
    | ok l =>
      simp only [hl, Except.ok.injEq, Prod.mk.injEq] at hm
      obtain ⟨built, hb, hf⟩ := NewHealthcheckManager_loop_ok newHealthchecker _ _ _ _ hl
      obtain ⟨hm1, hm2⟩ := hm
      subst hm1
      refine ⟨hfresh, hm2.symm, rfl, ?_⟩
      simpa [managerOf, hb] using hf
  · have hreg : ∃ n ∈ gaugeNames, n ∈ registry := by
      by_contra hcon
      exact hfresh (fun n hn hnr => hcon ⟨n, hn, hnr⟩)
    rw [NewHealthcheckManager_of_registered newHealthchecker registry config hreg] at hm
    simp at hm

theorem NewHealthcheckManager_error
    (newHealthchecker : RPCHealthcheckerConfig → Except String Healthchecker)
    (registry : Registry) (config : HealthcheckManagerConfig) :
    (∃ err, NewHealthcheckManager newHealthchecker registry config = .error err) ↔
      (∃ n ∈ gaugeNames, n ∈ registry) ∨
      ∃ t ∈ config.Targets, ∃ err,
        newHealthchecker (targetConfig config.Config t) = .error err := by
  by_cases hreg : ∃ n ∈ gaugeNames, n ∈ registry
  · simp only [hreg, true_or, iff_true]
    exact ⟨_, NewHealthcheckManager_of_registered newHealthchecker registry config hreg⟩
  · have hfresh : ∀ n ∈ gaugeNames, n ∉ registry := fun n hn hnr => hreg ⟨n, hn, hnr⟩
    simp only [hreg, false_or]
    rw [← NewHealthcheckManager_loop_error newHealthchecker config.Config config.Targets [],
      NewHealthcheckManager_of_fresh newHealthchecker registry config hfresh]
    cases NewHealthcheckManager.loop newHealthchecker config.Config config.Targets [] with
    | error err => simp
    | ok l => simp

/-- Claim C7 as stated fails: the first construction in a process, from two valid
targets, succeeds and leaves the four gauge names registered; a second
construction then panics in `promauto.NewGaugeVec`, from the same targets and
from an empty target list alike, although the monitor constructor fails for no
target. -/
theorem NewHealthcheckManager_one_monitor_per_target_counterexample :
    ∃ m registry,
      NewHealthcheckManager (NewHealthchecker rejectEmptyURL) [] sampleConfig =
        .ok (m, registry) ∧
      (∃ err, NewHealthcheckManager (NewHealthchecker rejectEmptyURL) registry sampleConfig =
        .error err) ∧
      (∃ err, NewHealthcheckManager (NewHealthchecker rejectEmptyURL) registry
        { sampleConfig with Targets := [] } = .error err) ∧
      ¬ ∃ t ∈ sampleConfig.Targets, ∃ err,
        NewHealthchecker rejectEmptyURL (targetConfig sampleConfig.Config t) = .error err :=
  ⟨_, _, rfl, ⟨_, rfl⟩, ⟨_, rfl⟩, by
    rintro ⟨t, ht, err, herr⟩
    simp only [sampleConfig, List.mem_cons, List.mem_singleton, List.not_mem_nil,
      or_false] at ht
    rcases ht with rfl | rfl <;> simp [NewHealthchecker, rejectEmptyURL, targetConfig] at herr⟩

/-- Claim C7, amended: `NewHealthcheckManager` fails exactly when one of its four
gauge names is already registered in the Prometheus default registry (as after an
earlier `NewHealthcheckManager` call in the process) or the monitor constructor
fails for some target of the configuration; when it succeeds the four names are
registered and the fleet has one monitor per target, in the order of the targets,
the monitor at each position being what the constructor returns for that target's
name and URL and the shared interval, timeout and thresholds; when none of the
four names is registered yet, an empty target list gives an empty fleet. -/
theorem NewHealthcheckManager_one_monitor_per_target
    (newHealthchecker : RPCHealthcheckerConfig → Except String Healthchecker)
    (registry : Registry) (config : HealthcheckManagerConfig) :
    ((∃ err, NewHealthcheckManager newHealthchecker registry config = .error err) ↔
      (∃ n ∈ gaugeNames, n ∈ registry) ∨
      ∃ t ∈ config.Targets, ∃ err,
        newHealthchecker (targetConfig config.Config t) = .error err) ∧
    (∀ m registry', NewHealthcheckManager newHealthchecker registry config = .ok (m, registry') →
      registry' = registry ++ gaugeNames ∧
      m.healthcheckers.length = config.Targets.length ∧
      List.Forall₂
        (fun t hc => newHealthchecker
          { URL := t.URL, Name := t.Name, Interval := config.Config.Interval,
            Timeout := config.Config.Timeout,
            FailureThreshold := config.Config.FailureThreshold,
            SuccessThreshold := config.Config.SuccessThreshold } = .ok hc)
        config.Targets m.healthcheckers) ∧
    ((∀ n ∈ gaugeNames, n ∉ registry) → config.Targets = [] →
      ∃ m registry', NewHealthcheckManager newHealthchecker registry config =
        .ok (m, registry') ∧ m.healthcheckers = []) := by
  refine ⟨NewHealthcheckManager_error newHealthchecker registry config, ?_, ?_⟩
  · intro m registry' hm
    obtain ⟨-, hr, -, hf⟩ := NewHealthcheckManager_ok newHealthchecker registry registry' config m hm
    exact ⟨hr, hf.length_eq.symm, hf⟩
  · intro hfresh hnil
    rw [NewHealthcheckManager_of_fresh newHealthchecker registry config hfresh, hnil]
    exact ⟨_, _, rfl, rfl⟩

theorem NewHealthcheckManager_one_monitor_per_target_witness :
    (∃ m registry', NewHealthcheckManager (NewHealthchecker rejectEmptyURL) [] sampleConfig =
        .ok (m, registry') ∧
      registry' = gaugeNames ∧
      m.healthcheckers.length = 2 ∧
      m.healthcheckers.map Healthchecker.Name = ["a", "b"]) ∧
    (∃ err, NewHealthcheckManager (NewHealthchecker rejectEmptyURL) []
      { sampleConfig with Targets := [{ Name := "a", URL := "http://a" },
          { Name := "c", URL := "" }] } = .error err) ∧
    (∃ err, NewHealthcheckManager (NewHealthchecker rejectEmptyURL)
      ["zeroex_rpc_gateway_provider_status"] sampleConfig = .error err) :=
  ⟨⟨_, _, rfl,
     ((NewHealthcheckManager_one_monitor_per_target (NewHealthchecker rejectEmptyURL) []
        sampleConfig).2.1 _ _ rfl).1,
     ((NewHealthcheckManager_one_monitor_per_target (NewHealthchecker rejectEmptyURL) []
        sampleConfig).2.1 _ _ rfl).2.1,
     by decide⟩,
   (NewHealthcheckManager_one_monitor_per_target (NewHealthchecker rejectEmptyURL) [] _).1.2
     (Or.inr ⟨{ Name := "c", URL := "" }, by decide, "empty URL", rfl⟩),
   (NewHealthcheckManager_one_monitor_per_target (NewHealthchecker rejectEmptyURL)
     ["zeroex_rpc_gateway_provider_status"] sampleConfig).1.2
     (Or.inl ⟨"zeroex_rpc_gateway_provider_status", by decide, by decide⟩)⟩

/-! ## The fleet as a map keyed by name -/

theorem names_of_constructed
    (newHealthchecker : RPCHealthcheckerConfig → Except String Healthchecker)
    (hname : ∀ c hc, newHealthchecker c = .ok hc → hc.Name = c.Name)
    (shared : HealthCheckConfig) :
    ∀ (targets : List NodeProviderConfig) (hcs : List Healthchecker),
      List.Forall₂ (fun t hc => newHealthchecker (targetConfig shared t) = .ok hc)
        targets hcs →
      hcs.map Healthchecker.Name = targets.map NodeProviderConfig.Name := by
  intro targets hcs hf
  induction hf with
  | nil => rfl
  | cons hhd _ ih =>
    simp only [List.map_cons, ih]
    rw [hname _ _ hhd]
    rfl

theorem GetTargetByName_self_of_nodup (h : HealthcheckManager)
    (hnd : (h.healthcheckers.map Healthchecker.Name).Nodup) (i : Nat) (hc : Healthchecker)
    (hi : h.healthcheckers[i]? = some hc) :
    (GetTargetByName h hc.Name).ret = some i := by
  obtain ⟨i', m, hret, hm, hmn, -⟩ :=
    GetTargetByName_found_of_mem h hc.Name ⟨hc, List.getElem?_mem hi, rfl⟩
  have hne := List.nodup_iff_getElem?_ne_getElem?.1 hnd
  have h1 : (h.healthcheckers.map Healthchecker.Name)[i]? = some hc.Name := by
    simp [List.getElem?_map, hi]
  have h2 : (h.healthcheckers.map Healthchecker.Name)[i']? = some hc.Name := by
    simp [List.getElem?_map, hm, hmn]
  have hil : i < (h.healthcheckers.map Healthchecker.Name).length := by
    by_contra hcon
    rw [List.getElem?_eq_none (by omega)] at h1
    exact absurd h1 (by simp)
  have hil' : i' < (h.healthcheckers.map Healthchecker.Name).length := by
    by_contra hcon
    rw [List.getElem?_eq_none (by omega)] at h2
    exact absurd h2 (by simp)
  rcases Nat.lt_trichotomy i i' with hlt | heq | hgt
  · exact absurd (h1.trans h2.symm) (hne i i' hlt hil')
  · rw [hret, heq]
  · exact absurd (h2.trans h1.symm) (hne i' i hgt hil)

/-- Claim C5 as stated fails: from two valid targets that share the name "a" the
manager is constructed, its two monitors have the same name, and looking up the
name of the monitor at position 1 returns the monitor at position 0. -/
theorem constructed_fleet_keyed_by_name_counterexample :
    ∃ m registry,
      NewHealthcheckManager (NewHealthchecker fun _ => none) [] duplicateNameConfig =
        .ok (m, registry) ∧
      ¬ (m.healthcheckers.map Healthchecker.Name).Nodup ∧
      ∃ hc, m.healthcheckers[1]? = some hc ∧
        (GetTargetByName m hc.Name).ret = some 0 ∧
        (GetTargetByName m hc.Name).ret ≠ some 1 :=
  ⟨_, _, rfl, by decide, _, rfl, by decide, by decide⟩

/-- Claim C5, amended: when the names of the configured targets are pairwise
distinct (and a constructed monitor reports the name it was configured with),
the names of the monitors of the constructed fleet are pairwise distinct and
`GetTargetByName(m.Name())` returns, for every monitor `m` of the fleet, the
reference to `m` itself. -/
theorem constructed_fleet_keyed_by_name
    (newHealthchecker : RPCHealthcheckerConfig → Except String Healthchecker)
    (hname : ∀ c hc, newHealthchecker c = .ok hc → hc.Name = c.Name)
    (registry registry' : Registry) (config : HealthcheckManagerConfig)
    (m : HealthcheckManager)
    (hm : NewHealthcheckManager newHealthchecker registry config = .ok (m, registry'))
    (hnd : (config.Targets.map NodeProviderConfig.Name).Nodup) :
    (m.healthcheckers.map Healthchecker.Name).Nodup ∧
    ∀ i hc, m.healthcheckers[i]? = some hc → (GetTargetByName m hc.Name).ret = some i := by
  have hnames := names_of_constructed newHealthchecker hname config.Config _ _
    (NewHealthcheckManager_ok newHealthchecker registry registry' config m hm).2.2.2
  have hnd' : (m.healthcheckers.map Healthchecker.Name).Nodup := by rw [hnames]; exact hnd
  exact ⟨hnd', fun i hc hi => GetTargetByName_self_of_nodup m hnd' i hc hi⟩

theorem NewHealthchecker_Name (validate : RPCHealthcheckerConfig → Option String) :
    ∀ c hc, NewHealthchecker validate c = .ok hc → hc.Name = c.Name := by
  intro c hc hok
  unfold NewHealthchecker at hok
  cases hv : validate c with
  | some err => simp [hv] at hok
  | none =>
    simp only [hv, Except.ok.injEq] at hok
    subst hok
    rfl

theorem constructed_fleet_keyed_by_name_witness :
    (sampleConfig.Targets.map NodeProviderConfig.Name).Nodup ∧
    ∃ m registry,
      NewHealthcheckManager (NewHealthchecker rejectEmptyURL) [] sampleConfig =
        .ok (m, registry) ∧
      (m.healthcheckers.map Healthchecker.Name).Nodup ∧
      ∀ i hc, m.healthcheckers[i]? = some hc → (GetTargetByName m hc.Name).ret = some i :=
  ⟨by decide, _, _, rfl,
   constructed_fleet_keyed_by_name (NewHealthchecker rejectEmptyURL)
     (NewHealthchecker_Name rejectEmptyURL) [] _ sampleConfig _ rfl (by decide)⟩

/-! ## The fleet is fixed -/

theorem reportStatusMetrics_loop_healthcheckers :
    ∀ (l : List Healthchecker) (h : HealthcheckManager),
      (reportStatusMetrics.loop l h).healthcheckers = h.healthcheckers := by
  intro l
  induction l with
  | nil => intro h; rfl
  | cons hd tl ih =>
    intro h
    simp only [reportStatusMetrics.loop]
    rw [ih]
    rfl

theorem Op_run_healthcheckers (op : Op) (h : HealthcheckManager) :
    (op.run h).healthcheckers.map untaintedView = h.healthcheckers.map untaintedView := by
  cases op with
  | startRegister => rfl
  | reportStatusMetrics =>
    show (reportStatusMetrics.loop h.healthcheckers h).healthcheckers.map untaintedView = _
    rw [reportStatusMetrics_loop_healthcheckers]
  | stop outcome =>
    show (Stop.loop outcome h.healthcheckers 0).1.map untaintedView = _
    rw [Stop_loop_monitors]
  | getTargetByName name =>
    show (GetTargetByName h name).manager.healthcheckers.map untaintedView = _
    rw [GetTargetByName_manager_eq]
  | taintTarget name => exact TaintTarget_untaintedView h name

theorem Op_run_list_healthcheckers :
    ∀ (ops : List Op) (h : HealthcheckManager),
      (ops.foldl (fun h op => op.run h) h).healthcheckers.map untaintedView =
        h.healthcheckers.map untaintedView := by
  intro ops
  induction ops with
  | nil => intro h; rfl
  | cons op ops ih =>
    intro h
    simp only [List.foldl_cons]
    rw [ih, Op_run_healthcheckers]

theorem fleet_shape_of_untaintedView (l l' : List Healthchecker)
    (hv : l.map untaintedView = l'.map untaintedView) :
    l.length = l'.length ∧
      l.map Healthchecker.Name = l'.map Healthchecker.Name ∧
      l.map Healthchecker.config = l'.map Healthchecker.config := by
  refine ⟨?_, map_Name_of_untaintedView l l' hv, ?_⟩
  · simpa using congrArg List.length hv
  · have := congrArg
      (List.map fun v : RPCHealthcheckerConfig × Nat × Nat × Bool × Nat => v.1) hv
    simpa [List.map_map, Function.comp_def, untaintedView] using this

/-- Claim C10: every runtime operation of the manager (the registration loop of
`Start`, `reportStatusMetrics`, `Stop`, `GetTargetByName`, `TaintTarget`, with any
arguments), and hence every sequence of them, leaves the manager's list of
monitors with the same length and, position by position, the same names and
configurations: no monitor is added, removed or reordered. -/
theorem fleet_fixed_after_construction (h : HealthcheckManager) :
    (∀ op : Op,
      (op.run h).healthcheckers.length = h.healthcheckers.length ∧
      (op.run h).healthcheckers.map Healthchecker.Name =
        h.healthcheckers.map Healthchecker.Name ∧
      (op.run h).healthcheckers.map Healthchecker.config =
        h.healthcheckers.map Healthchecker.config) ∧
    (∀ ops : List Op,
      (ops.foldl (fun h op => op.run h) h).healthcheckers.length = h.healthcheckers.length ∧
      (ops.foldl (fun h op => op.run h) h).healthcheckers.map Healthchecker.Name =
        h.healthcheckers.map Healthchecker.Name ∧
      (ops.foldl (fun h op => op.run h) h).healthcheckers.map Healthchecker.config =
        h.healthcheckers.map Healthchecker.config) :=
  ⟨fun op => fleet_shape_of_untaintedView _ _ (Op_run_healthcheckers op h),
   fun ops => fleet_shape_of_untaintedView _ _ (Op_run_list_healthcheckers ops h)⟩

theorem fleet_fixed_after_construction_witness :
    ((Op.taintTarget "b").run (managerOf [sampleMonitor "a" true false 7,
      sampleMonitor "b" false false 8])).healthcheckers.map Healthchecker.Name = ["a", "b"] ∧
    ([Op.startRegister, Op.taintTarget "a", Op.stop secondStopFails,
        Op.reportStatusMetrics, Op.getTargetByName "z"].foldl (fun h op => op.run h)
      (managerOf [sampleMonitor "a" true false 7,
        sampleMonitor "b" false false 8])).healthcheckers.length = 2 :=
  ⟨((fleet_fixed_after_construction (managerOf [sampleMonitor "a" true false 7,
      sampleMonitor "b" false false 8])).1 (Op.taintTarget "b")).2.1,
   ((fleet_fixed_after_construction (managerOf [sampleMonitor "a" true false 7,
      sampleMonitor "b" false false 8])).2 _).1⟩

/-! ## Reporting -/

theorem float64_rounding_examples :
    float64 9007199254740993 = 9007199254740992 ∧
    float64 9007199254740995 = 9007199254740996 ∧
    float64 9007199254740994 = 9007199254740994 ∧
    float64 18446744073709551615 = 18446744073709551616 ∧
    float64 12345 = 12345 := by
  decide

theorem float64_of_le (n : Nat) (hn : n ≤ 2 ^ 53) : float64 n = n := by
  rcases Nat.lt_or_ge n (2 ^ 53) with hlt | hge
  · have hs : float64Shift n 11 0 = 0 := by
      show (if n < 2 ^ (53 + 0) then 0 else float64Shift n 10 1) = 0
      exact if_pos hlt
    simp [float64, hs, Nat.mod_one]
  · have : n = 2 ^ 53 := Nat.le_antisymm hn hge
    subst this
    decide

theorem reportStatusMetrics_loop_gasLimit_other :
    ∀ (l : List Healthchecker) (h : HealthcheckManager) (labels : List String),
      (∀ m ∈ l, labels ≠ [m.Name]) →
      (reportStatusMetrics.loop l h).metricRPCProviderGasLimit labels =
        h.metricRPCProviderGasLimit labels := by
  intro l
  induction l with
  | nil => intro h labels _; rfl
  | cons hd tl ih =>
    intro h labels hl
    simp only [reportStatusMetrics.loop]
    rw [ih _ labels (fun m hm => hl m (List.mem_cons_of_mem _ hm))]
    simp [reportStatusMetrics.body, GaugeVec.Set, hl hd (List.mem_cons_self _ _)]

theorem reportStatusMetrics_loop_blockNumber_other :
    ∀ (l : List Healthchecker) (h : HealthcheckManager) (labels : List String),
      (∀ m ∈ l, labels ≠ [m.Name]) →
      (reportStatusMetrics.loop l h).metricRPCProviderBlockNumber labels =
        h.metricRPCProviderBlockNumber labels := by
  intro l
  induction l with
  | nil => intro h labels _; rfl
  | cons hd tl ih =>
    intro h labels hl
    simp only [reportStatusMetrics.loop]
    rw [ih _ labels (fun m hm => hl m (List.mem_cons_of_mem _ hm))]
    simp [reportStatusMetrics.body, GaugeVec.Set, hl hd (List.mem_cons_self _ _)]

theorem reportStatusMetrics_loop_status_other :
    ∀ (l : List Healthchecker) (h : HealthcheckManager) (labels : List String),
      (∀ m ∈ l, labels ≠ [m.Name, "healthy"] ∧ labels ≠ [m.Name, "tainted"]) →
      (reportStatusMetrics.loop l h).metricRPCProviderStatus labels =
        h.metricRPCProviderStatus labels := by
  intro l
  induction l with
  | nil => intro h labels _; rfl
  | cons hd tl ih =>
    intro h labels hl
    simp only [reportStatusMetrics.loop]
    rw [ih _ labels (fun m hm => hl m (List.mem_cons_of_mem _ hm))]
    simp [reportStatusMetrics.body, GaugeVec.Set, (hl hd (List.mem_cons_self _ _)).1,
      (hl hd (List.mem_cons_self _ _)).2]

theorem reportStatusMetrics_loop_gauges :
    ∀ (l : List Healthchecker) (h : HealthcheckManager),
      (l.map Healthchecker.Name).Nodup → ∀ m ∈ l,
        (reportStatusMetrics.loop l h).metricRPCProviderGasLimit [m.Name] =
          some (float64 m.BlockNumber) ∧
        (reportStatusMetrics.loop l h).metricRPCProviderBlockNumber [m.Name] =
          some (float64 m.BlockNumber) ∧
        (reportStatusMetrics.loop l h).metricRPCProviderStatus [m.Name, "healthy"] =
          some (float64 (if m.IsHealthy then 1 else 0)) ∧
        (reportStatusMetrics.loop l h).metricRPCProviderStatus [m.Name, "tainted"] =
          some (float64 (if m.IsTainted then 1 else 0)) := by
  intro l
  induction l with
  | nil => intro h _ m hm; simp at hm
  | cons hd tl ih =>
    intro h hnd m hm
    simp only [List.map_cons, List.nodup_cons] at hnd
    simp only [reportStatusMetrics.loop]
    rcases List.mem_cons.1 hm with rfl | hmt
    · have hother : ∀ m' ∈ tl, m.Name ≠ m'.Name := by
        intro m' hm' heq
        exact hnd.1 (heq ▸ List.mem_map_of_mem Healthchecker.Name hm')
      refine ⟨?_, ?_, ?_, ?_⟩
      · rw [reportStatusMetrics_loop_gasLimit_other tl _ _
          (fun m' hm' => by simpa using hother m' hm')]
        simp [reportStatusMetrics.body, GaugeVec.Set]
      · rw [reportStatusMetrics_loop_blockNumber_other tl _ _
          (fun m' hm' => by simpa using hother m' hm')]
        simp [reportStatusMetrics.body, GaugeVec.Set]
      · rw [reportStatusMetrics_loop_status_other tl _ _
          (fun m' hm' => by simpa using hother m' hm')]
        simp [reportStatusMetrics.body, GaugeVec.Set]
      · rw [reportStatusMetrics_loop_status_other tl _ _
          (fun m' hm' => by simpa using hother m' hm')]
        simp [reportStatusMetrics.body, GaugeVec.Set]
    · exact ih _ hnd.2 m hmt

/-- Claim C9 as stated fails: a monitor reports the `uint64` block number
`2^53 + 1`, which no `float64` holds; after `reportStatusMetrics` its block-number
gauge and its gas-limit gauge hold `float64(2^53 + 1) = 2^53`, not the block
number. -/
theorem reportStatusMetrics_gauges_counterexample :
    (highBlockFleet.healthcheckers.map Healthchecker.Name).Nodup ∧
    ∃ m ∈ highBlockFleet.healthcheckers,
      m.BlockNumber < 2 ^ 64 ∧
      (reportStatusMetrics highBlockFleet).manager.metricRPCProviderBlockNumber [m.Name] =
        some 9007199254740992 ∧
      (reportStatusMetrics highBlockFleet).manager.metricRPCProviderBlockNumber [m.Name] ≠
        some m.BlockNumber ∧
      (reportStatusMetrics highBlockFleet).manager.metricRPCProviderGasLimit [m.Name] ≠
        some m.BlockNumber :=
  ⟨by decide, sampleMonitor "a" true false 9007199254740993, by decide, by decide, by decide,
    by decide, by decide⟩

/-- Claim C9, amended: for a fleet with pairwise distinct monitor names, after one
`reportStatusMetrics` call every monitor `m` has status gauge
`(m.Name(), "healthy")` equal to 1 if `m.IsHealthy()` and 0 otherwise, status gauge
`(m.Name(), "tainted")` equal to 1 if `m.IsTainted()` and 0 otherwise, block-number
gauge `(m.Name())` equal to `float64(m.BlockNumber())`, which is `m.BlockNumber()`
itself whenever that is at most `2^53`, and gas-limit gauge `(m.Name())` equal to
the block-number gauge; the call leaves every monitor as it was. -/
theorem reportStatusMetrics_gauges (h : HealthcheckManager)
    (hnd : (h.healthcheckers.map Healthchecker.Name).Nodup) :
    (reportStatusMetrics h).manager.healthcheckers = h.healthcheckers ∧
    ∀ m ∈ h.healthcheckers,
      (reportStatusMetrics h).manager.metricRPCProviderStatus [m.Name, "healthy"] =
        some (if m.IsHealthy then 1 else 0) ∧
      (reportStatusMetrics h).manager.metricRPCProviderStatus [m.Name, "tainted"] =
        some (if m.IsTainted then 1 else 0) ∧
      (reportStatusMetrics h).manager.metricRPCProviderBlockNumber [m.Name] =
        some (float64 m.BlockNumber) ∧
      (reportStatusMetrics h).manager.metricRPCProviderGasLimit [m.Name] =
        (reportStatusMetrics h).manager.metricRPCProviderBlockNumber [m.Name] ∧
      (m.BlockNumber ≤ 2 ^ 53 →
        (reportStatusMetrics h).manager.metricRPCProviderBlockNumber [m.Name] =
          some m.BlockNumber ∧
        (reportStatusMetrics h).manager.metricRPCProviderGasLimit [m.Name] =
          some m.BlockNumber) := by
  refine ⟨reportStatusMetrics_loop_healthcheckers _ h, ?_⟩
  intro m hm
  obtain ⟨hgas, hblock, hhealthy, htainted⟩ :=
    reportStatusMetrics_loop_gauges h.healthcheckers h hnd m hm
  have hbit : ∀ b : Bool, float64 (if b then 1 else 0) = if b then 1 else 0 := by
    intro b; cases b <;> decide
  rw [hbit] at hhealthy htainted
  refine ⟨hhealthy, htainted, hblock, hgas.trans hblock.symm, ?_⟩
  intro hle
  have hgas' := hgas
  have hblock' := hblock
  rw [float64_of_le _ hle] at hgas' hblock'
  exact ⟨hblock', hgas'⟩

theorem reportStatusMetrics_gauges_witness :
    ((managerOf [sampleMonitor "a" true false 7,
        sampleMonitor "b" false true 8]).healthcheckers.map Healthchecker.Name).Nodup ∧
    (reportStatusMetrics (managerOf [sampleMonitor "a" true false 7,
        sampleMonitor "b" false true 8])).manager.metricRPCProviderStatus ["b", "healthy"] =
      some 0 ∧
    (reportStatusMetrics (managerOf [sampleMonitor "a" true false 7,
        sampleMonitor "b" false true 8])).manager.metricRPCProviderStatus ["b", "tainted"] =
      some 1 ∧
    (reportStatusMetrics (managerOf [sampleMonitor "a" true false 7,
        sampleMonitor "b" false true 8])).manager.metricRPCProviderBlockNumber ["b"] =
      some 8 ∧
    (reportStatusMetrics (managerOf [sampleMonitor "a" true false 7,
        sampleMonitor "b" false true 8])).manager.metricRPCProviderGasLimit ["b"] =
      some 8 :=
  have hw := (reportStatusMetrics_gauges (managerOf [sampleMonitor "a" true false 7,
    sampleMonitor "b" false true 8]) (by decide)).2 (sampleMonitor "b" false true 8) (by decide)
  ⟨by decide, hw.1, hw.2.1, (hw.2.2.2.2 (by decide)).1, (hw.2.2.2.2 (by decide)).2⟩

end Proxy
